import Mathlib

/-!
# memex-git: a shallow embedding of the command shell

The repository is a thin shell around the go-git library.  The shell's own code
(`git/module.go`, `git/standalone_module.go`, `main.go`, `plugin/main.go`) is
embedded function by function.  The wrapped library and the Go runtime calls the
shell makes (`filepath.Abs`, `filepath.Join`, `time.Format`, the `%s` rendering of a
library value) are not part of the repository: they are a parameter `Lib W` of
every definition, an oracle over an abstract on-disk world `W`.

Effects are explicit: a process state `Sys W` carries the world, the chunks written
to standard output and standard error (one chunk per write call), and the trace of
library calls made so far.
-/

namespace MemexGit

/-! ## Values exchanged with the wrapped library -/

/-- The text of a Go `error` value (`err.Error()`); `nil` is `none` where optional. -/
abbrev GoError := String

/-- A `plumbing.Hash`: an array of twenty bytes. -/
structure Hash where
  bytes : List (Fin 256)
  size : bytes.length = 20

/-- One lower-case hexadecimal digit. -/
def hexDigit (n : Nat) : Char :=
  if n < 10 then Char.ofNat (48 + n) else Char.ofNat (87 + n)

/-- The two digits of one byte, high nibble first. -/
def hexByte (b : Fin 256) : List Char :=
  [hexDigit (b.val / 16), hexDigit (b.val % 16)]

/-- The digits of `hex.EncodeToString`. -/
def hexEncode : List (Fin 256) → List Char
  | [] => []
  | b :: bs => hexByte b ++ hexEncode bs

/-- The method `Hash.String()`: the hexadecimal text of the twenty bytes. -/
def Hash.hexString (h : Hash) : String :=
  String.mk (hexEncode h.bytes)

/-- Go's `s[:n]` on a string: `none` is the out-of-range panic.  It is only applied to
hexadecimal text, where byte and character positions coincide. -/
def sliceTo (s : String) (n : Nat) : Option String :=
  if n ≤ s.length then some (String.mk (s.data.take n)) else none

/-- A `time.Time`, counted in seconds from Go's zero time. -/
abbrev Time := Int

/-- An `object.Signature`. -/
structure Signature where
  Name : String
  Email : String
  When : Time

/-- An `object.Commit`, the fields the shell reads. -/
structure Commit where
  Hash : Hash
  Message : String
  Author : Signature

/-- A `git.StatusCode`. -/
inductive StatusCode where
  | Unmodified
  | Untracked
  | Modified
  | Added
  | Deleted
  | Renamed
  | Copied
  | UpdatedButUnmerged
  deriving DecidableEq

/-- A `git.FileStatus`. -/
structure FileStatus where
  Staging : StatusCode
  Worktree : StatusCode
  Extra : String

/-- A `git.Status` (a map from file name to file status), as the sequence of entries in
the order a `range` loop visits them. -/
abbrev Status := List (String × FileStatus)

/-- The method `Status.IsClean()`: every entry is unmodified in both columns. -/
def Status.IsClean (st : Status) : Bool :=
  st.all fun e => decide (e.2.Worktree = StatusCode.Unmodified) && decide (e.2.Staging = StatusCode.Unmodified)

/-- A `*git.Repository`. -/
structure GitRepository where
  ptr : Nat
  deriving DecidableEq

/-- A `*git.Worktree`. -/
structure GitWorktree where
  ptr : Nat
  deriving DecidableEq

/-- A `types.Repository` of the host application. -/
structure HostRepository where
  ptr : Nat
  deriving DecidableEq

/-- A `*plumbing.Reference`, the part `ref.Hash()` reads. -/
structure Reference where
  hash : Hash

/-- The options `git.AddOptions`. -/
structure AddOptions where
  All : Bool
  Path : String
  Glob : String

/-- The options `git.CommitOptions`: `Author` is a pointer, `none` when left unset. -/
structure CommitOptions where
  Author : Option Signature

/-- The options `git.LogOptions`: `From` is `none` for the zero hash of an empty literal. -/
structure LogOptions where
  From : Option Hash

/-- An `object.CommitIter` as `ForEach` sees it: the commits it delivers, in order, and
the error it ends with (`none` when the history is exhausted normally). -/
structure CommitIter where
  commits : List Commit
  err : Option GoError

/-- The wrapped library and runtime, as an oracle over the on-disk world `W`.  Calls that
only read (`PlainOpen`, `Worktree`, `Status`, `Head`, `Log`) return a result; calls that
write return the new world as well. -/
structure Lib (W : Type) where
  Abs : W → String → Except GoError String
  Join : String → String → String
  PlainInit : W → String → Bool → Except GoError GitRepository × W
  PlainOpen : W → String → Except GoError GitRepository
  Worktree : W → GitRepository → Except GoError GitWorktree
  Status : W → GitWorktree → Except GoError Status
  AddWithOptions : W → GitWorktree → AddOptions → Option GoError × W
  Add : W → GitWorktree → String → Except GoError Hash × W
  Commit : W → GitWorktree → String → CommitOptions → Except GoError Hash × W
  Head : W → GitRepository → Except GoError Reference
  Log : W → GitRepository → LogOptions → Except GoError CommitIter
  statusString : MemexGit.Status → String
  fmtStatusCode : StatusCode → String
  Format : Time → String → String

/-- One call into the wrapped library, with its arguments. -/
inductive LibCall where
  | plainInit (path : String) (bare : Bool)
  | plainOpen (path : String)
  | worktree (r : GitRepository)
  | status (wt : GitWorktree)
  | addWithOptions (wt : GitWorktree) (opts : AddOptions)
  | add (wt : GitWorktree) (path : String)
  | commit (wt : GitWorktree) (message : String) (opts : CommitOptions)
  | head (r : GitRepository)
  | log (r : GitRepository) (opts : LogOptions)
  | forEach

/-- The state of one process: the world, what was written, the library calls made, and
whether a run-time panic stopped it. -/
structure Sys (W : Type) where
  world : W
  stdout : List String
  stderr : List String
  calls : List LibCall
  panicked : Bool

/-- A fresh process over the world `w`. -/
def Sys.start {W : Type} (w : W) : Sys W :=
  { world := w, stdout := [], stderr := [], calls := [], panicked := false }

/-- One write to standard output. -/
def Sys.print {W : Type} (s : Sys W) (text : String) : Sys W :=
  { s with stdout := s.stdout ++ [text] }

/-- One write to standard error. -/
def Sys.eprint {W : Type} (s : Sys W) (text : String) : Sys W :=
  { s with stderr := s.stderr ++ [text] }

/-- Record a library call. -/
def Sys.call {W : Type} (s : Sys W) (c : LibCall) : Sys W :=
  { s with calls := s.calls ++ [c] }

/-- Replace the world after a writing library call. -/
def Sys.setWorld {W : Type} (s : Sys W) (w : W) : Sys W :=
  { s with world := w }

/-- What a method leaves behind: its error value, the receiver and the process state. -/
abbrev Ret (M W : Type) := Option GoError × M × Sys W

/-- The path resolution shared by both constructors: `filepath.Abs`, falling back to
the given path when it fails. -/
def absOrSelf {W : Type} (L : Lib W) (w : W) (path : String) : String :=
  match L.Abs w path with
  | .ok p => p
  | .error _ => path

/-! ## `git/module.go`: the host-integrated module -/

/-- The struct `Module`. -/
structure Module where
  repo : Option HostRepository
  git : Option GitRepository
  repoPath : String

/-- The constructor `NewModule` of `module.go`: resolves the path and stores it; the
handle `git` is left nil. -/
def Module.NewModule {W : Type} (L : Lib W) (repo : Option HostRepository) (path : String)
    (s : Sys W) : Module × Sys W :=
  ({ repo := repo, git := none, repoPath := absOrSelf L s.world path }, s)

/-- The method `Module.ID`. -/
def Module.ID (_m : Module) : String := "git"

/-- The method `Module.Name`. -/
def Module.Name (_m : Module) : String := "Git Management"

/-- The method `Module.Description`. -/
def Module.Description (_m : Module) : String :=
  "Manages Git version control within memex repositories"

/-- The method `Module.InitRepo`. -/
def Module.InitRepo {W : Type} (L : Lib W) (m : Module) (s : Sys W) : Ret Module W :=
  let s1 := s.call (LibCall.plainInit m.repoPath false)
  match L.PlainInit s.world m.repoPath false with
  | (.error e, w) => (some ("initializing git repo: " ++ e), m, s1.setWorld w)
  | (.ok r, w) => (none, { m with git := some r }, s1.setWorld w)

/-- The method `Module.ShowStatus`: prints the library's own rendering of the status. -/
def Module.ShowStatus {W : Type} (L : Lib W) (m : Module) (s : Sys W) : Ret Module W :=
  match m.git with
  | none => (some "git repository not initialized", m, s)
  | some r =>
    let s1 := s.call (LibCall.worktree r)
    match L.Worktree s.world r with
    | .error e => (some ("getting worktree: " ++ e), m, s1)
    | .ok wt =>
      let s2 := s1.call (LibCall.status wt)
      match L.Status s.world wt with
      | .error e => (some ("getting status: " ++ e), m, s2)
      | .ok st => (none, m, s2.print (L.statusString st ++ "\n"))

/-- The staging request `Module.AddFiles` builds for a path. -/
def Module.addOptions {W : Type} (L : Lib W) (m : Module) (path : String) : AddOptions :=
  { All := true, Path := L.Join m.repoPath path, Glob := "" }

/-- The method `Module.AddFiles`. -/
def Module.AddFiles {W : Type} (L : Lib W) (m : Module) (path : String) (s : Sys W) :
    Ret Module W :=
  match m.git with
  | none => (some "git repository not initialized", m, s)
  | some r =>
    let s1 := s.call (LibCall.worktree r)
    match L.Worktree s.world r with
    | .error e => (some ("getting worktree: " ++ e), m, s1)
    | .ok wt =>
      let s2 := s1.call (LibCall.addWithOptions wt (m.addOptions L path))
      match L.AddWithOptions s.world wt (m.addOptions L path) with
      | (some e, w) => (some ("adding files: " ++ e), m, s2.setWorld w)
      | (none, w) => (none, m, s2.setWorld w)

/-- The method `Module.Commit`: the commit options are the empty literal. -/
def Module.Commit {W : Type} (L : Lib W) (m : Module) (message : String) (s : Sys W) :
    Ret Module W :=
  match m.git with
  | none => (some "git repository not initialized", m, s)
  | some r =>
    let s1 := s.call (LibCall.worktree r)
    match L.Worktree s.world r with
    | .error e => (some ("getting worktree: " ++ e), m, s1)
    | .ok wt =>
      let s2 := s1.call (LibCall.commit wt message { Author := none })
      match L.Commit s.world wt message { Author := none } with
      | (.error e, w) => (some ("committing changes: " ++ e), m, s2.setWorld w)
      | (.ok _, w) => (none, m, s2.setWorld w)

/-- The line the callback of `Module.ShowLog` prints for one commit. -/
def Module.logEntry (c : MemexGit.Commit) : String :=
  c.Hash.hexString ++ " " ++ c.Message ++ "\n"

/-- The `ForEach` loop of `Module.ShowLog` over the commits the iterator delivers. -/
def Module.printCommits {W : Type} : List MemexGit.Commit → Sys W → Sys W
  | [], s => s
  | c :: cs, s => Module.printCommits cs (s.print (Module.logEntry c))

/-- The method `Module.ShowLog`. -/
def Module.ShowLog {W : Type} (L : Lib W) (m : Module) (s : Sys W) : Ret Module W :=
  match m.git with
  | none => (some "git repository not initialized", m, s)
  | some r =>
    let s1 := s.call (LibCall.log r { From := none })
    match L.Log s.world r { From := none } with
    | .error e => (some ("getting log: " ++ e), m, s1)
    | .ok iter =>
      let s2 := Module.printCommits iter.commits (s1.call LibCall.forEach)
      match iter.err with
      | some e => (some ("iterating commits: " ++ e), m, s2)
      | none => (none, m, s2)

/-- The method `Module.HandleCommand`. -/
def Module.HandleCommand {W : Type} (L : Lib W) (m : Module) (cmd : String)
    (args : List String) (s : Sys W) : Ret Module W :=
  if cmd = "init" then m.InitRepo L s
  else if cmd = "status" then m.ShowStatus L s
  else if cmd = "add" then
    match args with
    | [] => m.AddFiles L "." s
    | a :: _ => m.AddFiles L a s
  else if cmd = "commit" then
    match args with
    | [] => (some "commit message required", m, s)
    | a :: _ => m.Commit L a s
  else if cmd = "log" then m.ShowLog L s
  else (some ("unknown command: " ++ cmd), m, s)

/-! ## `git/standalone_module.go`: the standalone module -/

/-- The struct `StandaloneModule`. -/
structure StandaloneModule where
  git : Option GitRepository
  repoPath : String

/-- The constructor `NewModule` of `standalone_module.go`: resolves the path, then tries
to open an existing repository there and keeps the handle when that succeeds. -/
def StandaloneModule.NewModule {W : Type} (L : Lib W) (path : String) (s : Sys W) :
    StandaloneModule × Sys W :=
  let absPath := absOrSelf L s.world path
  let s1 := s.call (LibCall.plainOpen absPath)
  match L.PlainOpen s.world absPath with
  | .ok r => ({ git := some r, repoPath := absPath }, s1)
  | .error _ => ({ git := none, repoPath := absPath }, s1)

/-- The method `StandaloneModule.InitRepo`. -/
def StandaloneModule.InitRepo {W : Type} (L : Lib W) (m : StandaloneModule) (s : Sys W) :
    Ret StandaloneModule W :=
  let s1 := s.call (LibCall.plainInit m.repoPath false)
  match L.PlainInit s.world m.repoPath false with
  | (.error e, w) => (some ("initializing git repository: " ++ e), m, s1.setWorld w)
  | (.ok r, w) => (none, { m with git := some r }, s1.setWorld w)

/-- The line the non-clean branch of `StandaloneModule.ShowStatus` prints for one entry
of the status map: the staging code under the verb `%s`, then the file name. -/
def StandaloneModule.statusLine {W : Type} (L : Lib W) (e : String × FileStatus) : String :=
  "  " ++ L.fmtStatusCode e.2.Staging ++ " " ++ e.1 ++ "\n"

/-- The `range` loop of `StandaloneModule.ShowStatus`. -/
def StandaloneModule.printStatus {W : Type} (L : Lib W) : MemexGit.Status → Sys W → Sys W
  | [], s => s
  | e :: es, s => StandaloneModule.printStatus L es (s.print (StandaloneModule.statusLine L e))

/-- The method `StandaloneModule.ShowStatus`. -/
def StandaloneModule.ShowStatus {W : Type} (L : Lib W) (m : StandaloneModule) (s : Sys W) :
    Ret StandaloneModule W :=
  match m.git with
  | none => (some "git repository not initialized", m, s)
  | some r =>
    let s1 := s.call (LibCall.worktree r)
    match L.Worktree s.world r with
    | .error e => (some ("getting worktree: " ++ e), m, s1)
    | .ok wt =>
      let s2 := s1.call (LibCall.status wt)
      match L.Status s.world wt with
      | .error e => (some ("getting status: " ++ e), m, s2)
      | .ok st =>
        if st.IsClean then
          (none, m, (s2.print "On branch main\n").print "nothing to commit, working tree clean\n")
        else
          (none, m, StandaloneModule.printStatus L st (s2.print "Changes:\n"))

/-- The method `StandaloneModule.AddFiles`. -/
def StandaloneModule.AddFiles {W : Type} (L : Lib W) (m : StandaloneModule) (path : String)
    (s : Sys W) : Ret StandaloneModule W :=
  match m.git with
  | none => (some "git repository not initialized", m, s)
  | some r =>
    let s1 := s.call (LibCall.worktree r)
    match L.Worktree s.world r with
    | .error e => (some ("getting worktree: " ++ e), m, s1)
    | .ok wt =>
      let s2 := s1.call (LibCall.add wt path)
      match L.Add s.world wt path with
      | (.error e, w) => (some ("adding files: " ++ e), m, s2.setWorld w)
      | (.ok _, w) => (none, m, s2.setWorld w)

/-- The fixed author of `StandaloneModule.Commit`; `When` is left at the zero time. -/
def StandaloneModule.author : Signature :=
  { Name := "Memex User", Email := "user@memex.local", When := 0 }

/-- The method `StandaloneModule.Commit`. -/
def StandaloneModule.Commit {W : Type} (L : Lib W) (m : StandaloneModule) (message : String)
    (s : Sys W) : Ret StandaloneModule W :=
  match m.git with
  | none => (some "git repository not initialized", m, s)
  | some r =>
    let s1 := s.call (LibCall.worktree r)
    match L.Worktree s.world r with
    | .error e => (some ("getting worktree: " ++ e), m, s1)
    | .ok wt =>
      let s2 := s1.call (LibCall.commit wt message { Author := some StandaloneModule.author })
      match L.Commit s.world wt message { Author := some StandaloneModule.author } with
      | (.error e, w) => (some ("creating commit: " ++ e), m, s2.setWorld w)
      | (.ok h, w) => (none, m, (s2.setWorld w).print ("Committed: " ++ h.hexString ++ "\n"))

/-- The three writes the callback of `StandaloneModule.ShowLog` makes for one commit,
given the abbreviated hash. -/
def StandaloneModule.logEntry {W : Type} (L : Lib W) (short : String) (c : MemexGit.Commit) :
    List String :=
  [ short ++ " " ++ c.Message ++ "\n",
    "Author: " ++ c.Author.Name ++ " <" ++ c.Author.Email ++ ">\n",
    "Date: " ++ L.Format c.Author.When "Mon Jan 2 15:04:05 2006" ++ "\n\n" ]

/-- The `ForEach` loop of `StandaloneModule.ShowLog`: the slice `[:7]` of the hash text
panics when out of range, which stops the process. -/
def StandaloneModule.printCommits {W : Type} (L : Lib W) : List MemexGit.Commit → Sys W → Sys W
  | [], s => s
  | c :: cs, s =>
    match sliceTo c.Hash.hexString 7 with
    | none => { s with panicked := true }
    | some short =>
      StandaloneModule.printCommits L cs
        { s with stdout := s.stdout ++ StandaloneModule.logEntry L short c }

/-- The method `StandaloneModule.ShowLog`. -/
def StandaloneModule.ShowLog {W : Type} (L : Lib W) (m : StandaloneModule) (s : Sys W) :
    Ret StandaloneModule W :=
  match m.git with
  | none => (some "git repository not initialized", m, s)
  | some r =>
    let s1 := s.call (LibCall.head r)
    match L.Head s.world r with
    | .error e => (some ("getting HEAD reference: " ++ e), m, s1)
    | .ok ref =>
      let s2 := s1.call (LibCall.log r { From := some ref.hash })
      match L.Log s.world r { From := some ref.hash } with
      | .error e => (some ("getting log: " ++ e), m, s2)
      | .ok iter =>
        let s3 := StandaloneModule.printCommits L iter.commits
          ((s2.print "Commit History:\n").call LibCall.forEach)
        if s3.panicked then (none, m, s3)
        else
          match iter.err with
          | some e => (some ("iterating commits: " ++ e), m, s3)
          | none => (none, m, s3)

/-! ## The process environment -/

/-- The environment of a process: a variable is set to a value or absent. -/
abbrev Env := String → Option String

/-- The call `os.Getenv`: the empty string when the variable is absent. -/
def Getenv (env : Env) (name : String) : String :=
  (env name).getD ""

/-! ## `plugin/main.go`: the plugin entrypoint -/

/-- The repository path `plugin/main.go` computes before it builds the module. -/
def pluginRepoPath (env : Env) (argv : List String) : String :=
  let repoPath := Getenv env "MEMEX_REPO_PATH"
  let repoPath := if repoPath = "" ∧ argv.length > 1 then argv.getD 1 "" else repoPath
  if repoPath = "" then "." else repoPath

/-- The function `main` of `plugin/main.go`: the exit code and the final process state. -/
def pluginMain {W : Type} (L : Lib W) (env : Env) (argv : List String) (s : Sys W) :
    Nat × Sys W :=
  let built := Module.NewModule L none (pluginRepoPath env argv) s
  let module := built.1
  let s0 := built.2
  let cmd := if argv.length > 1 then argv.getD 1 "" else ""
  if cmd = "id" then (0, s0.print module.ID)
  else if cmd = "name" then (0, s0.print module.Name)
  else if cmd = "describe" then (0, s0.print module.Description)
  else if cmd = "run" then
    if argv.length < 3 then (1, s0.eprint "command required")
    else
      match module.HandleCommand L (argv.getD 2 "") (argv.drop 3) s0 with
      | (some err, _, s1) => (1, s1.eprint err)
      | (none, _, s1) => (0, s1)
  else (1, s0.eprint "unknown command")

/-! ## `main.go`: the direct command line -/

/-- Which of the two `NewModule` constructors of package `git` the direct command line
is linked against; `main.go` calls only methods both modules have. -/
inductive Variant where
  | hostIntegrated
  | standalone
  deriving DecidableEq

/-- The value `git.NewModule(nil, repoPath)` gives `main.go`. -/
inductive CliModule where
  | host (m : Module)
  | alone (m : StandaloneModule)

/-- The handle of either module. -/
def CliModule.git : CliModule → Option GitRepository
  | .host m => m.git
  | .alone m => m.git

/-- A result of the host-integrated module, seen by `main.go`. -/
def liftHost {W : Type} (r : Ret Module W) : Ret CliModule W :=
  (r.1, CliModule.host r.2.1, r.2.2)

/-- A result of the standalone module, seen by `main.go`. -/
def liftAlone {W : Type} (r : Ret StandaloneModule W) : Ret CliModule W :=
  (r.1, CliModule.alone r.2.1, r.2.2)

/-- The call `git.NewModule(nil, path)` of `main.go`. -/
def CliModule.NewModule {W : Type} (L : Lib W) (v : Variant) (path : String) (s : Sys W) :
    CliModule × Sys W :=
  match v with
  | .hostIntegrated => (CliModule.host (Module.NewModule L none path s).1, (Module.NewModule L none path s).2)
  | .standalone =>
    (CliModule.alone (StandaloneModule.NewModule L path s).1, (StandaloneModule.NewModule L path s).2)

/-- The call `gitModule.InitRepo()`. -/
def CliModule.InitRepo {W : Type} (L : Lib W) : CliModule → Sys W → Ret CliModule W
  | .host m, s => liftHost (m.InitRepo L s)
  | .alone m, s => liftAlone (m.InitRepo L s)

/-- The call `gitModule.ShowStatus()`. -/
def CliModule.ShowStatus {W : Type} (L : Lib W) : CliModule → Sys W → Ret CliModule W
  | .host m, s => liftHost (m.ShowStatus L s)
  | .alone m, s => liftAlone (m.ShowStatus L s)

/-- The call `gitModule.AddFiles(path)`. -/
def CliModule.AddFiles {W : Type} (L : Lib W) : CliModule → String → Sys W → Ret CliModule W
  | .host m, path, s => liftHost (m.AddFiles L path s)
  | .alone m, path, s => liftAlone (m.AddFiles L path s)

/-- The call `gitModule.Commit(message)`. -/
def CliModule.Commit {W : Type} (L : Lib W) : CliModule → String → Sys W → Ret CliModule W
  | .host m, message, s => liftHost (m.Commit L message s)
  | .alone m, message, s => liftAlone (m.Commit L message s)

/-- The call `gitModule.ShowLog()`. -/
def CliModule.ShowLog {W : Type} (L : Lib W) : CliModule → Sys W → Ret CliModule W
  | .host m, s => liftHost (m.ShowLog L s)
  | .alone m, s => liftAlone (m.ShowLog L s)

/-- The lines `printUsage` writes, one `Println` each. -/
def usageLines : List String :=
  [ "memex-git - Git version control integration for memex\n",
    "\n",
    "Usage: memex-git <command> [arguments]\n",
    "\n",
    "Commands:\n",
    "  init                      Initialize a new Git repository\n",
    "  status                    Show working tree status\n",
    "  add [path]                Add files to index (default: current directory)\n",
    "  commit <message>          Commit staged changes with message\n",
    "  log                       Show commit history\n",
    "  help, --help              Show this help message\n",
    "  --info                    Show module metadata (JSON)\n",
    "\n",
    "Environment Variables:\n",
    "  MEMEX_REPO_PATH           Path to the repository (default: current directory)\n" ]

/-- The function `printUsage`. -/
def printUsage {W : Type} (s : Sys W) : Sys W :=
  { s with stdout := s.stdout ++ usageLines }

/-- The JSON text `json.Marshal` gives for the fixed `ModuleInfo` value. -/
def infoJson : String :=
  "\x7b\"id\":\"git\",\"name\":\"Git Management\",\"description\":\"Manages Git version control within memex repositories\",\"version\":\"1.0.0\"\x7d"

/-- The repository path `main.go` computes before it builds the module. -/
def cliRepoPath (env : Env) : String :=
  let repoPath := Getenv env "MEMEX_REPO_PATH"
  if repoPath = "" then "." else repoPath

/-- The error exit every command of `main.go` shares: the formatted error on standard
error, exit code 1. -/
def cliFail {W : Type} (err : GoError) (s : Sys W) : Nat × Sys W :=
  (1, s.eprint ("Error: " ++ err ++ "\n"))

/-- The function `main` of `main.go`: the exit code and the final process state.  A
run-time panic ends the process with exit code 2. -/
def cliMain {W : Type} (L : Lib W) (v : Variant) (env : Env) (argv : List String)
    (s : Sys W) : Nat × Sys W :=
  if argv.length < 2 then (1, printUsage s)
  else
    let command := argv.getD 1 ""
    let args := argv.drop 2
    let built := CliModule.NewModule L v (cliRepoPath env) s
    let gitModule := built.1
    let s0 := built.2
    if command = "--info" then (0, s0.print (infoJson ++ "\n"))
    else if command = "init" then
      match gitModule.InitRepo L s0 with
      | (some err, _, s1) => cliFail err s1
      | (none, _, s1) => (0, s1.print "Initialized empty Git repository\n")
    else if command = "status" then
      match gitModule.ShowStatus L s0 with
      | (some err, _, s1) => cliFail err s1
      | (none, _, s1) => (0, s1)
    else if command = "add" then
      let path := match args with
        | [] => "."
        | a :: _ => a
      match gitModule.AddFiles L path s0 with
      | (some err, _, s1) => cliFail err s1
      | (none, _, s1) => (0, s1.print ("Added files: " ++ path ++ "\n"))
    else if command = "commit" then
      match args with
      | [] =>
        (1, (s0.eprint "Error: commit message required\n").eprint
          "Usage: memex-git commit <message>\n")
      | message :: _ =>
        match gitModule.Commit L message s0 with
        | (some err, _, s1) => cliFail err s1
        | (none, _, s1) => (0, s1.print ("Committed changes: " ++ message ++ "\n"))
    else if command = "log" then
      match gitModule.ShowLog L s0 with
      | (some err, _, s1) => cliFail err s1
      | (none, _, s1) => if s1.panicked then (2, s1) else (0, s1)
    else if command = "help" ∨ command = "--help" then (0, printUsage s0)
    else (1, printUsage (s0.eprint ("Unknown command: " ++ command ++ "\n")))

/-! ## Sequences of operations on one module -/

/-- One operation a caller applies to a module. -/
inductive Op where
  | init
  | status
  | add (path : String)
  | commit (message : String)
  | log

/-- One operation on the host-integrated module. -/
def Module.step {W : Type} (L : Lib W) (m : Module) (s : Sys W) : Op → Ret Module W
  | .init => m.InitRepo L s
  | .status => m.ShowStatus L s
  | .add path => m.AddFiles L path s
  | .commit message => m.Commit L message s
  | .log => m.ShowLog L s

/-- A sequence of operations on the host-integrated module: the error value of each, in
order, and the module and process state at the end. -/
def Module.run {W : Type} (L : Lib W) : List Op → Module → Sys W →
    List (Option GoError) × Module × Sys W
  | [], m, s => ([], m, s)
  | op :: ops, m, s =>
    ((m.step L s op).1 :: (Module.run L ops (m.step L s op).2.1 (m.step L s op).2.2).1,
      (Module.run L ops (m.step L s op).2.1 (m.step L s op).2.2).2)

/-- One operation on the standalone module. -/
def StandaloneModule.step {W : Type} (L : Lib W) (m : StandaloneModule) (s : Sys W) :
    Op → Ret StandaloneModule W
  | .init => m.InitRepo L s
  | .status => m.ShowStatus L s
  | .add path => m.AddFiles L path s
  | .commit message => m.Commit L message s
  | .log => m.ShowLog L s

/-- A sequence of operations on the standalone module: the error value of each, in
order, and the module and process state at the end. -/
def StandaloneModule.run {W : Type} (L : Lib W) : List Op → StandaloneModule → Sys W →
    List (Option GoError) × StandaloneModule × Sys W
  | [], m, s => ([], m, s)
  | op :: ops, m, s =>
    ((m.step L s op).1 :: (StandaloneModule.run L ops (m.step L s op).2.1 (m.step L s op).2.2).1,
      (StandaloneModule.run L ops (m.step L s op).2.1 (m.step L s op).2.2).2)

/-- Some `InitRepo` of the sequence succeeded: an `init` paired with the error value nil. -/
def initSucceeded : List Op → List (Option GoError) → Bool
  | Op.init :: _, none :: _ => true
  | _ :: ops, _ :: errs => initSucceeded ops errs
  | _, _ => false

/-! ## A concrete world and library, for evaluating the shell on explicit inputs -/

/-- A small on-disk world: the paths that hold a repository, the working-tree status,
the history from the head, and the error (if any) that ends an iteration over it. -/
structure DemoWorld where
  repos : List String
  status : MemexGit.Status
  history : List MemexGit.Commit
  iterErr : Option GoError

/-- The hash whose twenty bytes are all `b`. -/
def Hash.ofByte (b : Fin 256) : Hash :=
  { bytes := List.replicate 20 b, size := List.length_replicate 20 b }

/-- The character a status code stands for in the library. -/
def StatusCode.toChar : StatusCode → Char
  | .Unmodified => ' '
  | .Untracked => '?'
  | .Modified => 'M'
  | .Added => 'A'
  | .Deleted => 'D'
  | .Renamed => 'R'
  | .Copied => 'C'
  | .UpdatedButUnmerged => 'U'

/-- The library's `Status.String()`: one line per entry that is not unmodified in both
columns, the two codes and the file name. -/
def demoStatusString : MemexGit.Status → String
  | [] => ""
  | e :: es =>
    if e.2.Staging = StatusCode.Unmodified ∧ e.2.Worktree = StatusCode.Unmodified then
      demoStatusString es
    else
      String.mk [e.2.Staging.toChar, e.2.Worktree.toChar] ++ " " ++ e.1 ++ "\n"
        ++ demoStatusString es

/-- How `fmt` renders a status code (a byte type without a `String` method) under `%s`. -/
def demoFmtStatusCode : StatusCode → String
  | .Unmodified => "%!s(git.StatusCode=32)"
  | .Untracked => "%!s(git.StatusCode=63)"
  | .Modified => "%!s(git.StatusCode=77)"
  | .Added => "%!s(git.StatusCode=65)"
  | .Deleted => "%!s(git.StatusCode=68)"
  | .Renamed => "%!s(git.StatusCode=82)"
  | .Copied => "%!s(git.StatusCode=67)"
  | .UpdatedButUnmerged => "%!s(git.StatusCode=85)"

/-- A library over `DemoWorld`: the working directory is `/work`, a repository can be
created where none exists and opened where one does, staging and committing succeed,
and the history is read from the world. -/
def demoLib : Lib DemoWorld where
  Abs := fun _ p =>
    if p = "." then .ok "/work"
    else if p.data.head? = some '/' then .ok p
    else .ok ("/work/" ++ p)
  Join := fun a b => if b = "." then a else a ++ "/" ++ b
  PlainInit := fun w p _ =>
    if p ∈ w.repos then (.error "repository already exists", w)
    else (.ok { ptr := 1 }, { w with repos := p :: w.repos })
  PlainOpen := fun w p =>
    if p ∈ w.repos then .ok { ptr := 1 } else .error "repository does not exist"
  Worktree := fun _ r => .ok { ptr := r.ptr }
  Status := fun w _ => .ok w.status
  AddWithOptions := fun w _ _ => (none, w)
  Add := fun w _ _ => (.ok (Hash.ofByte 0), w)
  Commit := fun w _ _ _ => (.ok (Hash.ofByte 171), w)
  Head := fun w _ =>
    match w.history with
    | [] => .error "reference not found"
    | c :: _ => .ok { hash := c.Hash }
  Log := fun w _ _ => .ok { commits := w.history, err := w.iterErr }
  statusString := demoStatusString
  fmtStatusCode := demoFmtStatusCode
  Format := fun _ _ => "Mon Jan 1 00:00:00 0001"

/-- A world with no repository anywhere. -/
def emptyWorld : DemoWorld :=
  { repos := [], status := [], history := [], iterErr := none }

/-- A world with a repository at `/work`, a clean tree and no commit. -/
def repoWorld : DemoWorld :=
  { repos := ["/work"], status := [], history := [], iterErr := none }

/-- A commit by Alice. -/
def demoCommit : MemexGit.Commit :=
  { Hash := Hash.ofByte 171, Message := "first",
    Author := { Name := "Alice", Email := "alice@example.org", When := 0 } }

/-- A world with a repository at `/work` whose history is one commit. -/
def oneCommitWorld : DemoWorld :=
  { repos := ["/work"], status := [], history := [demoCommit], iterErr := none }

/-- A world like `oneCommitWorld` whose history iteration fails after the first commit. -/
def brokenHistoryWorld : DemoWorld :=
  { repos := ["/work"], status := [], history := [demoCommit], iterErr := some "object not found" }

/-- A host-integrated module at `/work` whose handle is absent. -/
def unopenedModule : Module :=
  { repo := none, git := none, repoPath := "/work" }

/-- A host-integrated module at `/work` whose handle is present. -/
def openModule : Module :=
  { repo := none, git := some { ptr := 1 }, repoPath := "/work" }

/-- A standalone module at `/work` whose handle is absent. -/
def unopenedStandalone : StandaloneModule :=
  { git := none, repoPath := "/work" }

/-- A standalone module at `/work` whose handle is present. -/
def openStandalone : StandaloneModule :=
  { git := some { ptr := 1 }, repoPath := "/work" }

/-- An environment with no variable set. -/
def noEnv : Env := fun _ => none

/-- An environment where only `MEMEX_REPO_PATH` is set, to `/data`. -/
def dataEnv : Env := fun name => if name = "MEMEX_REPO_PATH" then some "/data" else none

/-- The error every operation returns while the handle is absent. -/
def notInitialized : GoError := "git repository not initialized"

/-- An environment where only `MEMEX_REPO_PATH` is set, to `/work`. -/
def workEnv : Env := fun name => if name = "MEMEX_REPO_PATH" then some "/work" else none

/-! ## Vocabulary of the statements -/

/-- The text `needle` occurs in the text `hay`. -/
def containsText (needle hay : String) : Prop :=
  needle.data <:+: hay.data

instance (needle hay : String) : Decidable (containsText needle hay) :=
  inferInstanceAs (Decidable (needle.data <:+: hay.data))

/-- The first seven characters of a hash's hexadecimal text. -/
def abbrevHash (h : Hash) : String :=
  String.mk (h.hexString.data.take 7)

/-- What the standalone log writes for a history: the three writes of each commit, in
order, with the abbreviated hash. -/
def StandaloneModule.historyText {W : Type} (L : Lib W) : List MemexGit.Commit → List String
  | [] => []
  | c :: cs => StandaloneModule.logEntry L (abbrevHash c.Hash) c ++ StandaloneModule.historyText L cs

/-! ## C1: operations on an unopened module -/

/-- C1, as stated, fails: through `HandleCommand`, `commit` with an empty argument list on
an unopened module returns "commit message required", not "git repository not
initialized". -/
theorem C1_commit_without_message_counterexample :
    (unopenedModule.HandleCommand demoLib "commit" [] (Sys.start emptyWorld)).1
        = some "commit message required"
      ∧ (unopenedModule.HandleCommand demoLib "commit" [] (Sys.start emptyWorld)).1
        ≠ some "git repository not initialized" := by
  constructor
  · rfl
  · intro h
    simp [Module.HandleCommand] at h

/-- C1, amended: on a module whose handle is absent, `status`, `add` and `log` with every
argument list and `commit` with every non-empty argument list, dispatched through
`HandleCommand`, and `ShowStatus`, `AddFiles`, `Commit` and `ShowLog` called directly
in both variants, return "git repository not initialized" and leave the module and the
whole process state (standard output, library calls, world) as they were; `commit`
with an empty argument list returns "commit message required" instead, equally without
any effect. -/
theorem C1_unopened_returns_not_initialized {W : Type} (L : Lib W) (m : Module)
    (sm : StandaloneModule) (s : Sys W) (hm : m.git = none) (hsm : sm.git = none) :
    (∀ args, m.HandleCommand L "status" args s = (some notInitialized, m, s))
    ∧ (∀ args, m.HandleCommand L "add" args s = (some notInitialized, m, s))
    ∧ (∀ args, args ≠ [] → m.HandleCommand L "commit" args s = (some notInitialized, m, s))
    ∧ m.HandleCommand L "commit" [] s = (some "commit message required", m, s)
    ∧ (∀ args, m.HandleCommand L "log" args s = (some notInitialized, m, s))
    ∧ m.ShowStatus L s = (some notInitialized, m, s)
    ∧ (∀ path, m.AddFiles L path s = (some notInitialized, m, s))
    ∧ (∀ message, m.Commit L message s = (some notInitialized, m, s))
    ∧ m.ShowLog L s = (some notInitialized, m, s)
    ∧ sm.ShowStatus L s = (some notInitialized, sm, s)
    ∧ (∀ path, sm.AddFiles L path s = (some notInitialized, sm, s))
    ∧ (∀ message, sm.Commit L message s = (some notInitialized, sm, s))
    ∧ sm.ShowLog L s = (some notInitialized, sm, s) := by
  have hs : m.ShowStatus L s = (some notInitialized, m, s) := by
    simp [Module.ShowStatus, hm, notInitialized]
  have ha : ∀ path, m.AddFiles L path s = (some notInitialized, m, s) := by
    intro path
    simp [Module.AddFiles, hm, notInitialized]
  have hc : ∀ message, m.Commit L message s = (some notInitialized, m, s) := by
    intro message
    simp [Module.Commit, hm, notInitialized]
  have hl : m.ShowLog L s = (some notInitialized, m, s) := by
    simp [Module.ShowLog, hm, notInitialized]
  refine ⟨?_, ?_, ?_, ?_, ?_, hs, ha, hc, hl, ?_, ?_, ?_, ?_⟩
  · intro args
    simp [Module.HandleCommand, hs]
  · intro args
    cases args <;> simp [Module.HandleCommand, ha]
  · intro args hargs
    cases args with
    | nil => exact absurd rfl hargs
    | cons a rest => simp [Module.HandleCommand, hc]
  · simp [Module.HandleCommand]
  · intro args
    simp [Module.HandleCommand, hl]
  · simp [StandaloneModule.ShowStatus, hsm, notInitialized]
  · intro path
    simp [StandaloneModule.AddFiles, hsm, notInitialized]
  · intro message
    simp [StandaloneModule.Commit, hsm, notInitialized]
  · simp [StandaloneModule.ShowLog, hsm, notInitialized]

/-- C1, amended, at a concrete input: `commit "msg"` on the unopened modules at `/work`. -/
theorem C1_unopened_returns_not_initialized_witness :
    unopenedModule.HandleCommand demoLib "commit" ["msg"] (Sys.start emptyWorld)
        = (some notInitialized, unopenedModule, Sys.start emptyWorld)
      ∧ unopenedStandalone.ShowLog demoLib (Sys.start emptyWorld)
        = (some notInitialized, unopenedStandalone, Sys.start emptyWorld) :=
  ⟨(C1_unopened_returns_not_initialized demoLib unopenedModule unopenedStandalone
      (Sys.start emptyWorld) rfl rfl).2.2.1 ["msg"] (by simp),
   (C1_unopened_returns_not_initialized demoLib unopenedModule unopenedStandalone
      (Sys.start emptyWorld) rfl rfl).2.2.2.2.2.2.2.2.2.2.2.2⟩

/-! ## Shared lemmas on the constructors -/

/-- The standalone constructor makes one library call, the attempt to open. -/
theorem standalone_NewModule_sys {W : Type} (L : Lib W) (path : String) (s : Sys W) :
    (StandaloneModule.NewModule L path s).2
      = s.call (LibCall.plainOpen (absOrSelf L s.world path)) := by
  simp only [StandaloneModule.NewModule]
  split <;> rfl

/-- The standalone constructor stores the resolved path. -/
theorem standalone_NewModule_repoPath {W : Type} (L : Lib W) (path : String)
    (s : Sys W) :
    (StandaloneModule.NewModule L path s).1.repoPath = absOrSelf L s.world path := by
  simp only [StandaloneModule.NewModule]
  split <;> rfl

/-! ## C2: `commit` without a message -/

/-- C2: whatever the module state, `HandleCommand("commit", [])` returns exactly the error
"commit message required" and leaves the module and the process state (output, library
calls, world) untouched, so `Commit` is not called; the direct command line run as
`<prog> commit` exits 1 having written "Error: commit message required" and the usage
line to standard error, nothing to standard output, with the world unchanged and no
library call beyond the constructor's attempt to open the repository. -/
theorem C2_commit_requires_message {W : Type} (L : Lib W) (m : Module) (s : Sys W)
    (v : Variant) (env : Env) (prog : String) :
    m.HandleCommand L "commit" [] s = (some "commit message required", m, s)
    ∧ (cliMain L v env [prog, "commit"] s).1 = 1
    ∧ (cliMain L v env [prog, "commit"] s).2.stderr
        = s.stderr ++ ["Error: commit message required\n", "Usage: memex-git commit <message>\n"]
    ∧ (cliMain L v env [prog, "commit"] s).2.stdout = s.stdout
    ∧ (cliMain L v env [prog, "commit"] s).2.world = s.world
    ∧ (cliMain L v env [prog, "commit"] s).2.calls
        = s.calls ++ (match v with
            | .hostIntegrated => []
            | .standalone => [LibCall.plainOpen (absOrSelf L s.world (cliRepoPath env))]) := by
  refine ⟨by simp [Module.HandleCommand], ?_⟩
  cases v
  · simp [cliMain, CliModule.NewModule, Module.NewModule, Sys.eprint]
  · simp [cliMain, CliModule.NewModule, Sys.eprint, standalone_NewModule_sys, Sys.call]

/-! ## C3: what `add` asks the library to stage -/

/-- C3 at its failing input: on an open host-integrated module at `/work`,
`HandleCommand("add", ["a.txt"])` hands the library a staging request with `All` set
(beside the path `/work/a.txt`), while the standalone `AddFiles("a.txt")` asks for the
path `a.txt` alone. -/
theorem C3_host_add_sets_all :
    (openModule.HandleCommand demoLib "add" ["a.txt"] (Sys.start repoWorld)).2.2.calls
        = [LibCall.worktree { ptr := 1 },
           LibCall.addWithOptions { ptr := 1 } { All := true, Path := "/work/a.txt", Glob := "" }]
      ∧ (openStandalone.AddFiles demoLib "a.txt" (Sys.start repoWorld)).2.2.calls
        = [LibCall.worktree { ptr := 1 }, LibCall.add { ptr := 1 } "a.txt"] := by
  constructor <;> rfl

/-! ## Shared lemmas on the print loops and on hash text -/

/-- The status loop appends one line per entry, in order. -/
theorem standalone_printStatus_eq {W : Type} (L : Lib W) (st : MemexGit.Status)
    (s : Sys W) :
    StandaloneModule.printStatus L st s
      = { s with stdout := s.stdout ++ st.map (StandaloneModule.statusLine L) } := by
  induction st generalizing s with
  | nil => simp [StandaloneModule.printStatus]
  | cons e es ih => simp [StandaloneModule.printStatus, ih, Sys.print]

/-- The host log loop appends one line per commit, in order. -/
theorem host_printCommits_eq {W : Type} (cs : List MemexGit.Commit) (s : Sys W) :
    Module.printCommits cs s = { s with stdout := s.stdout ++ cs.map Module.logEntry } := by
  induction cs generalizing s with
  | nil => simp [Module.printCommits]
  | cons c cs ih => simp [Module.printCommits, ih, Sys.print]

/-- Hexadecimal encoding doubles the length. -/
theorem hexEncode_length (bs : List (Fin 256)) : (hexEncode bs).length = 2 * bs.length := by
  induction bs with
  | nil => rfl
  | cons b bs ih => simp [hexEncode, hexByte, ih]; omega

/-- The text of a hash has forty characters. -/
theorem Hash.hexString_length (h : Hash) : h.hexString.length = 40 := by
  simp [Hash.hexString, String.length, hexEncode_length, h.size]

/-- The slice `[:7]` of a hash's text is in range and is its first seven characters. -/
theorem sliceTo_hexString (h : Hash) : sliceTo h.hexString 7 = some (abbrevHash h) := by
  simp [sliceTo, abbrevHash, Hash.hexString_length]

/-- The standalone log loop never panics and appends the three writes of each commit. -/
theorem standalone_printCommits_eq {W : Type} (L : Lib W) (cs : List MemexGit.Commit)
    (s : Sys W) :
    StandaloneModule.printCommits L cs s
      = { s with stdout := s.stdout ++ StandaloneModule.historyText L cs } := by
  induction cs generalizing s with
  | nil => simp [StandaloneModule.printCommits, StandaloneModule.historyText]
  | cons c cs ih =>
    simp [StandaloneModule.printCommits, StandaloneModule.historyText, sliceTo_hexString, ih]

/-- The standalone log text has three writes per commit. -/
theorem standalone_historyText_length {W : Type} (L : Lib W)
    (cs : List MemexGit.Commit) :
    (StandaloneModule.historyText L cs).length = 3 * cs.length := by
  induction cs with
  | nil => rfl
  | cons c cs ih =>
    rw [StandaloneModule.historyText, List.length_append, ih]
    simp only [StandaloneModule.logEntry, List.length_cons, List.length_nil]
    omega

/-! ## C4: the output of `status` -/

/-- C4, as stated, fails for the host-integrated variant: on a clean tree its `ShowStatus`
writes only the library's rendering of the status and a newline (here the single chunk
"\n"), which holds no "nothing to commit" message. -/
theorem C4_host_clean_status_counterexample :
    repoWorld.status.IsClean = true
      ∧ (openModule.ShowStatus demoLib (Sys.start repoWorld)).1 = none
      ∧ (openModule.ShowStatus demoLib (Sys.start repoWorld)).2.2.stdout = ["\n"]
      ∧ ¬ containsText "nothing to commit" "\n" := by
  refine ⟨rfl, rfl, rfl, ?_⟩
  decide

/-- C4, amended: on an open module whose worktree and status the library delivers,
the standalone `ShowStatus` succeeds and writes, for a clean status, the two fixed lines
"On branch main" and "nothing to commit, working tree clean" (the same for every clean
tree and library), and for a status that is not clean the line "Changes:" followed by
one line per entry of the status, in iteration order, giving the entry's staging code
and file name; the host-integrated `ShowStatus` succeeds and writes one chunk, the
library's own rendering of the status followed by a newline, clean or not. -/
theorem C4_status_output {W : Type} (L : Lib W) (m : Module) (sm : StandaloneModule)
    (s : Sys W) (r : GitRepository) (wt : GitWorktree) (st : MemexGit.Status)
    (hm : m.git = some r) (hsm : sm.git = some r)
    (hwt : L.Worktree s.world r = .ok wt) (hst : L.Status s.world wt = .ok st) :
    (st.IsClean = true → sm.ShowStatus L s
        = (none, sm, { s with
            calls := s.calls ++ [LibCall.worktree r, LibCall.status wt],
            stdout := s.stdout ++ ["On branch main\n", "nothing to commit, working tree clean\n"] }))
    ∧ (st.IsClean = false → sm.ShowStatus L s
        = (none, sm, { s with
            calls := s.calls ++ [LibCall.worktree r, LibCall.status wt],
            stdout := s.stdout ++ "Changes:\n" :: st.map (StandaloneModule.statusLine L) }))
    ∧ m.ShowStatus L s
        = (none, m, { s with
            calls := s.calls ++ [LibCall.worktree r, LibCall.status wt],
            stdout := s.stdout ++ [L.statusString st ++ "\n"] }) := by
  refine ⟨?_, ?_, ?_⟩
  · intro hclean
    simp [StandaloneModule.ShowStatus, hsm, hwt, hst, hclean, Sys.call, Sys.print]
  · intro hdirty
    simp [StandaloneModule.ShowStatus, hsm, hwt, hst, hdirty, Sys.call, Sys.print,
      standalone_printStatus_eq]
  · simp [Module.ShowStatus, hm, hwt, hst, Sys.call, Sys.print]

/-- C4, amended, at a concrete input: the open modules at `/work` over a clean tree. -/
theorem C4_status_output_witness :
    openStandalone.ShowStatus demoLib (Sys.start repoWorld)
      = (none, openStandalone, { Sys.start repoWorld with
          calls := [LibCall.worktree { ptr := 1 }, LibCall.status { ptr := 1 }],
          stdout := ["On branch main\n", "nothing to commit, working tree clean\n"] }) :=
  (C4_status_output demoLib openModule openStandalone (Sys.start repoWorld) { ptr := 1 }
    { ptr := 1 } [] rfl rfl rfl rfl).1 rfl

/-! ## C5: the output of `log` -/

/-- C5, as stated, fails for the host-integrated variant: for a history of one commit by
Alice its `ShowLog` writes the single line of hash and message, which holds neither the
author nor a date. -/
theorem C5_host_log_counterexample :
    (openModule.ShowLog demoLib (Sys.start oneCommitWorld)).1 = none
      ∧ (openModule.ShowLog demoLib (Sys.start oneCommitWorld)).2.2.stdout
          = ["abababababababababababababababababababab first\n"]
      ∧ ¬ containsText demoCommit.Author.Name "abababababababababababababababababababab first\n"
      ∧ ¬ containsText "Date" "abababababababababababababababababababab first\n" := by
  refine ⟨rfl, rfl, ?_, ?_⟩ <;> decide

/-- C5, amended: on an open module whose history is delivered without error as the commits
`cs`, the host-integrated `ShowLog` succeeds and writes exactly one line per commit, in
iteration order, made of the full forty-character hash text, a blank, the message and
a newline (no author, no date); the standalone `ShowLog` (given that the head resolves)
succeeds and writes the line "Commit History:" and then, per commit in iteration order,
three writes: the first seven characters of the hash text with the message, the author
line with name and e-mail, and the date line; the slice of the hash text is always in
range, so the loop never panics. -/
theorem C5_log_output {W : Type} (L : Lib W) (m : Module) (sm : StandaloneModule)
    (s : Sys W) (r : GitRepository) (ref : Reference) (cs : List MemexGit.Commit)
    (hm : m.git = some r) (hsm : sm.git = some r)
    (hlog : L.Log s.world r { From := none } = .ok { commits := cs, err := none })
    (hhead : L.Head s.world r = .ok ref)
    (hfrom : L.Log s.world r { From := some ref.hash } = .ok { commits := cs, err := none }) :
    m.ShowLog L s
        = (none, m, { s with
            calls := s.calls ++ [LibCall.log r { From := none }, LibCall.forEach],
            stdout := s.stdout ++ cs.map Module.logEntry })
    ∧ sm.ShowLog L s
        = (none, sm, { s with
            calls := s.calls ++ [LibCall.head r, LibCall.log r { From := some ref.hash },
              LibCall.forEach],
            stdout := s.stdout ++ "Commit History:\n" :: StandaloneModule.historyText L cs })
    ∧ (cs.map Module.logEntry).length = cs.length
    ∧ (StandaloneModule.historyText L cs).length = 3 * cs.length
    ∧ ∀ c ∈ cs, c.Hash.hexString.length = 40
        ∧ sliceTo c.Hash.hexString 7 = some (abbrevHash c.Hash)
        ∧ (abbrevHash c.Hash).length = 7
        ∧ (abbrevHash c.Hash).data <+: c.Hash.hexString.data := by
  refine ⟨?_, ?_, by simp, ?_, ?_⟩
  · simp [Module.ShowLog, hm, hlog, host_printCommits_eq, Sys.call]
  · simp [StandaloneModule.ShowLog, hsm, hhead, hfrom, standalone_printCommits_eq,
      Sys.call, Sys.print]
  · exact standalone_historyText_length L cs
  · intro c _
    refine ⟨c.Hash.hexString_length, sliceTo_hexString c.Hash, ?_, ?_⟩
    · have h40 : c.Hash.hexString.data.length = 40 := c.Hash.hexString_length
      show (c.Hash.hexString.data.take 7).length = 7
      rw [List.length_take, h40]
      rfl
    · exact List.take_prefix 7 _

/-- C5, amended, at a concrete input: the open modules at `/work` over a history of one
commit. -/
theorem C5_log_output_witness :
    (openModule.ShowLog demoLib (Sys.start oneCommitWorld)).2.2.stdout
        = ["abababababababababababababababababababab first\n"]
      ∧ (openStandalone.ShowLog demoLib (Sys.start oneCommitWorld)).2.2.stdout
        = ["Commit History:\n", "abababa first\n", "Author: Alice <alice@example.org>\n",
           "Date: Mon Jan 1 00:00:00 0001\n\n"] := by
  have h := C5_log_output demoLib openModule openStandalone (Sys.start oneCommitWorld)
    { ptr := 1 } { hash := demoCommit.Hash } [demoCommit] rfl rfl rfl rfl rfl
  rw [h.1, h.2.1]
  exact ⟨rfl, rfl⟩

/-! ## C6: the repository path of the entrypoints -/

/-- C6 at its failing input: with `MEMEX_REPO_PATH` absent, the plugin entrypoint run as
`<prog> id` builds its module on the path "id", the protocol verb itself, and run as
`<prog> run status` on the path "run", not on "."; the direct command line builds its
module on "." in the same environment. -/
theorem C6_plugin_path_is_first_argument :
    Getenv noEnv "MEMEX_REPO_PATH" = ""
      ∧ pluginRepoPath noEnv ["memex-git", "id"] = "id"
      ∧ pluginRepoPath noEnv ["memex-git", "run", "status"] = "run"
      ∧ (Module.NewModule demoLib none (pluginRepoPath noEnv ["memex-git", "id"])
          (Sys.start repoWorld)).1.repoPath = "/work/id"
      ∧ cliRepoPath noEnv = "." := by
  refine ⟨rfl, ?_, ?_, ?_, ?_⟩ <;> decide

/-! ## C7: failures of the plugin entrypoint -/

/-- C7: in the plugin entrypoint, an argument vector without a first argument and one
whose first argument is none of `id`, `name`, `describe`, `run` end with exit code 1, the
single chunk "unknown command" on standard error and nothing else changed (no output,
no library call); `run` without a nested verb ends with exit code 1 and the single
chunk "command required" on standard error, the dispatcher not being called; `run`
with a nested verb ends with exit code 1 and the dispatcher's error on standard error
when `HandleCommand(argv[2], argv[3:])` returns an error, and with exit code 0 and
nothing written to standard error when it returns none. -/
theorem C7_plugin_failures {W : Type} (L : Lib W) (env : Env) (s : Sys W) :
    pluginMain L env [] s = (1, s.eprint "unknown command")
    ∧ (∀ prog, pluginMain L env [prog] s = (1, s.eprint "unknown command"))
    ∧ (∀ prog cmd rest, cmd ≠ "id" → cmd ≠ "name" → cmd ≠ "describe" → cmd ≠ "run" →
        pluginMain L env (prog :: cmd :: rest) s = (1, s.eprint "unknown command"))
    ∧ (∀ prog, pluginMain L env [prog, "run"] s = (1, s.eprint "command required"))
    ∧ (∀ prog verb args err m1 s1,
        (Module.NewModule L none (pluginRepoPath env (prog :: "run" :: verb :: args)) s).1.HandleCommand
            L verb args s = (some err, m1, s1) →
        pluginMain L env (prog :: "run" :: verb :: args) s = (1, s1.eprint err))
    ∧ (∀ prog verb args m1 s1,
        (Module.NewModule L none (pluginRepoPath env (prog :: "run" :: verb :: args)) s).1.HandleCommand
            L verb args s = (none, m1, s1) →
        pluginMain L env (prog :: "run" :: verb :: args) s = (0, s1)) := by
  refine ⟨?_, ?_, ?_, ?_, ?_, ?_⟩
  · simp [pluginMain, Module.NewModule]
  · intro prog
    simp [pluginMain, Module.NewModule]
  · intro prog cmd rest h1 h2 h3 h4
    simp [pluginMain, Module.NewModule, h1, h2, h3, h4]
  · intro prog
    simp [pluginMain, Module.NewModule]
  · intro prog verb args err m1 s1 h
    simp only [Module.NewModule] at h
    simp [pluginMain, Module.NewModule, h]
  · intro prog verb args m1 s1 h
    simp only [Module.NewModule] at h
    simp [pluginMain, Module.NewModule, h]

/-- C7 at concrete inputs: an unknown verb, and `run status` on a module that was never
initialized. -/
theorem C7_plugin_failures_witness :
    pluginMain demoLib noEnv ["memex-git", "frobnicate"] (Sys.start repoWorld)
        = (1, (Sys.start repoWorld).eprint "unknown command")
      ∧ pluginMain demoLib noEnv ["memex-git", "run", "status"] (Sys.start repoWorld)
        = (1, (Sys.start repoWorld).eprint "git repository not initialized") :=
  ⟨(C7_plugin_failures demoLib noEnv (Sys.start repoWorld)).2.2.1 "memex-git" "frobnicate" []
      (by decide) (by decide) (by decide) (by decide),
   (C7_plugin_failures demoLib noEnv (Sys.start repoWorld)).2.2.2.2.1 "memex-git" "status" []
      "git repository not initialized" _ _ rfl⟩

/-! ## C10: the metadata verbs of the plugin entrypoint -/

/-- C10: for every library, world, environment and argument vector whose first argument
is `id`, `name` or `describe`, the plugin entrypoint exits 0 having made exactly one
write to standard output, the constant "git", "Git Management" or "Manages Git version
control within memex repositories" (no newline), with standard error, the world and the
library trace untouched; so two runs with the same first argument, from fresh
processes over any two libraries, worlds, environments and argument tails, write the
same output. -/
theorem C10_plugin_metadata {W : Type} (L : Lib W) (env : Env) (s : Sys W) (prog : String)
    (rest : List String) :
    pluginMain L env (prog :: "id" :: rest) s = (0, s.print "git")
    ∧ pluginMain L env (prog :: "name" :: rest) s = (0, s.print "Git Management")
    ∧ pluginMain L env (prog :: "describe" :: rest) s
        = (0, s.print "Manages Git version control within memex repositories")
    ∧ (s.print "git").stderr = s.stderr
    ∧ ∀ (V : Type) (K : Lib V) (env2 : Env) (v : V) (w : W) (prog2 cmd : String)
        (rest2 : List String), cmd = "id" ∨ cmd = "name" ∨ cmd = "describe" →
        (pluginMain L env (prog :: cmd :: rest) (Sys.start w)).2.stdout
            = (pluginMain K env2 (prog2 :: cmd :: rest2) (Sys.start v)).2.stdout
          ∧ (pluginMain L env (prog :: cmd :: rest) (Sys.start w)).2.stderr = []
          ∧ (pluginMain L env (prog :: cmd :: rest) (Sys.start w)).1 = 0 := by
  refine ⟨?_, ?_, ?_, rfl, ?_⟩
  · simp [pluginMain, Module.NewModule, Module.ID]
  · simp [pluginMain, Module.NewModule, Module.Name]
  · simp [pluginMain, Module.NewModule, Module.Description]
  · intro V K env2 v w prog2 cmd rest2 hcmd
    rcases hcmd with h | h | h <;> subst h <;>
      simp [pluginMain, Module.NewModule, Module.ID, Module.Name, Module.Description,
        Sys.print, Sys.start]

/-- C10 at a concrete input: `describe` in a directory that holds no repository, with the
repository path set to a path that does not exist. -/
theorem C10_plugin_metadata_witness :
    pluginMain demoLib dataEnv ["memex-git", "describe"] (Sys.start emptyWorld)
        = (0, (Sys.start emptyWorld).print "Manages Git version control within memex repositories")
      ∧ (pluginMain demoLib noEnv ["memex-git", "id", "x"] (Sys.start repoWorld)).2.stdout
        = (pluginMain demoLib dataEnv ["other", "id"] (Sys.start emptyWorld)).2.stdout :=
  ⟨(C10_plugin_metadata demoLib dataEnv (Sys.start emptyWorld) "memex-git" []).2.2.1,
   ((C10_plugin_metadata demoLib noEnv (Sys.start repoWorld) "memex-git" ["x"]).2.2.2.2
      DemoWorld demoLib dataEnv emptyWorld repoWorld "other" "id" [] (Or.inl rfl)).1⟩

/-! ## C8: errors and partial output -/

/-- C8, as stated, fails: when the history iteration fails after the first commit, `ShowLog`
returns the error "iterating commits: ..." although it has already written the entry of
that commit (and, in the standalone variant, the line "Commit History:") to standard
output. -/
theorem C8_partial_log_counterexample :
    (openStandalone.ShowLog demoLib (Sys.start brokenHistoryWorld)).1
        = some "iterating commits: object not found"
      ∧ (openStandalone.ShowLog demoLib (Sys.start brokenHistoryWorld)).2.2.stdout
        = ["Commit History:\n", "abababa first\n", "Author: Alice <alice@example.org>\n",
           "Date: Mon Jan 1 00:00:00 0001\n\n"]
      ∧ (openModule.ShowLog demoLib (Sys.start brokenHistoryWorld)).1
        = some "iterating commits: object not found"
      ∧ (openModule.ShowLog demoLib (Sys.start brokenHistoryWorld)).2.2.stdout
        = ["abababababababababababababababababababab first\n"] := by
  refine ⟨rfl, rfl, rfl, rfl⟩

/-- An error of the host-integrated `InitRepo` comes with no output. -/
theorem host_InitRepo_error_silent {W : Type} (L : Lib W) (m : Module) (s : Sys W)
    (h : (m.InitRepo L s).1 ≠ none) : (m.InitRepo L s).2.2.stdout = s.stdout := by
  simp only [Module.InitRepo] at h ⊢
  split <;> simp_all [Sys.call, Sys.setWorld]

/-- An error of the host-integrated `ShowStatus` comes with no output. -/
theorem host_ShowStatus_error_silent {W : Type} (L : Lib W) (m : Module) (s : Sys W)
    (h : (m.ShowStatus L s).1 ≠ none) : (m.ShowStatus L s).2.2.stdout = s.stdout := by
  simp only [Module.ShowStatus] at h ⊢
  repeat' split
  all_goals simp_all [Sys.call, Sys.setWorld]

/-- An error of the host-integrated `AddFiles` comes with no output. -/
theorem host_AddFiles_error_silent {W : Type} (L : Lib W) (m : Module) (path : String)
    (s : Sys W) (h : (m.AddFiles L path s).1 ≠ none) :
    (m.AddFiles L path s).2.2.stdout = s.stdout := by
  simp only [Module.AddFiles] at h ⊢
  repeat' split
  all_goals simp_all [Sys.call, Sys.setWorld]

/-- An error of the host-integrated `Commit` comes with no output. -/
theorem host_Commit_error_silent {W : Type} (L : Lib W) (m : Module) (message : String)
    (s : Sys W) (h : (m.Commit L message s).1 ≠ none) :
    (m.Commit L message s).2.2.stdout = s.stdout := by
  simp only [Module.Commit] at h ⊢
  repeat' split
  all_goals simp_all [Sys.call, Sys.setWorld]

/-- An error of the standalone `InitRepo` comes with no output. -/
theorem standalone_InitRepo_error_silent {W : Type} (L : Lib W) (m : StandaloneModule)
    (s : Sys W) (h : (m.InitRepo L s).1 ≠ none) : (m.InitRepo L s).2.2.stdout = s.stdout := by
  simp only [StandaloneModule.InitRepo] at h ⊢
  split <;> simp_all [Sys.call, Sys.setWorld]

/-- An error of the standalone `ShowStatus` comes with no output. -/
theorem standalone_ShowStatus_error_silent {W : Type} (L : Lib W)
    (m : StandaloneModule) (s : Sys W) (h : (m.ShowStatus L s).1 ≠ none) :
    (m.ShowStatus L s).2.2.stdout = s.stdout := by
  simp only [StandaloneModule.ShowStatus] at h ⊢
  repeat' split
  all_goals simp_all [Sys.call, Sys.setWorld]

/-- An error of the standalone `AddFiles` comes with no output. -/
theorem standalone_AddFiles_error_silent {W : Type} (L : Lib W) (m : StandaloneModule)
    (path : String) (s : Sys W) (h : (m.AddFiles L path s).1 ≠ none) :
    (m.AddFiles L path s).2.2.stdout = s.stdout := by
  simp only [StandaloneModule.AddFiles] at h ⊢
  repeat' split
  all_goals simp_all [Sys.call, Sys.setWorld]

/-- An error of the standalone `Commit` comes with no output. -/
theorem standalone_Commit_error_silent {W : Type} (L : Lib W) (m : StandaloneModule)
    (message : String) (s : Sys W) (h : (m.Commit L message s).1 ≠ none) :
    (m.Commit L message s).2.2.stdout = s.stdout := by
  simp only [StandaloneModule.Commit] at h ⊢
  repeat' split
  all_goals simp_all [Sys.call, Sys.setWorld]

/-- An error of the host-integrated `ShowLog` either comes with no output, or is the
failure that ended the iteration and comes after the lines of the commits delivered. -/
theorem host_ShowLog_error_output {W : Type} (L : Lib W) (m : Module) (s : Sys W)
    (h : (m.ShowLog L s).1 ≠ none) :
    (m.ShowLog L s).2.2.stdout = s.stdout
    ∨ ∃ r iter e, m.git = some r ∧ L.Log s.world r { From := none } = .ok iter
        ∧ iter.err = some e
        ∧ (m.ShowLog L s).1 = some ("iterating commits: " ++ e)
        ∧ (m.ShowLog L s).2.2.stdout = s.stdout ++ iter.commits.map Module.logEntry := by
  cases hg : m.git with
  | none => left; simp [Module.ShowLog, hg]
  | some r =>
    cases hl : L.Log s.world r { From := none } with
    | error e => left; simp [Module.ShowLog, hg, hl, Sys.call]
    | ok iter =>
      cases he : iter.err with
      | none => simp [Module.ShowLog, hg, hl, he] at h
      | some e =>
        right
        exact ⟨r, iter, e, rfl, hl, he, by simp [Module.ShowLog, hg, hl, he],
          by simp [Module.ShowLog, hg, hl, he, host_printCommits_eq, Sys.call]⟩

/-- An error of the standalone `ShowLog` either comes with no output, or is the failure
that ended the iteration and comes after the header line and the writes of the commits
delivered. -/
theorem standalone_ShowLog_error_output {W : Type} (L : Lib W) (m : StandaloneModule)
    (s : Sys W) (h : (m.ShowLog L s).1 ≠ none) :
    (m.ShowLog L s).2.2.stdout = s.stdout
    ∨ ∃ r ref iter e, m.git = some r ∧ L.Head s.world r = .ok ref
        ∧ L.Log s.world r { From := some ref.hash } = .ok iter
        ∧ iter.err = some e
        ∧ (m.ShowLog L s).1 = some ("iterating commits: " ++ e)
        ∧ (m.ShowLog L s).2.2.stdout
            = s.stdout ++ "Commit History:\n" :: StandaloneModule.historyText L iter.commits := by
  cases hg : m.git with
  | none => left; simp [StandaloneModule.ShowLog, hg]
  | some r =>
    cases hh : L.Head s.world r with
    | error e => left; simp [StandaloneModule.ShowLog, hg, hh, Sys.call]
    | ok ref =>
      cases hl : L.Log s.world r { From := some ref.hash } with
      | error e => left; simp [StandaloneModule.ShowLog, hg, hh, hl, Sys.call]
      | ok iter =>
        cases he : iter.err with
        | none =>
          simp [StandaloneModule.ShowLog, hg, hh, hl, he] at h
        | some e =>
          right
          have hp : s.panicked = false := by
            cases hpan : s.panicked with
            | false => rfl
            | true =>
              simp [StandaloneModule.ShowLog, hg, hh, hl, he, standalone_printCommits_eq,
                Sys.call, Sys.print, hpan] at h
          exact ⟨r, ref, iter, e, rfl, hh, hl, he,
            by simp [StandaloneModule.ShowLog, hg, hh, hl, he, standalone_printCommits_eq,
              Sys.call, Sys.print, hp],
            by simp [StandaloneModule.ShowLog, hg, hh, hl, he, standalone_printCommits_eq,
              Sys.call, Sys.print, hp]⟩

/-- In the direct command line, an error of the handle method of any of the five verbs
ends the process with exit code 1 after one write to standard error, the formatted
error. -/
theorem cliMain_error_exit {W : Type} (L : Lib W) (v : Variant) (env : Env) (prog : String)
    (s : Sys W) (err : GoError) :
    (∀ args, ((CliModule.NewModule L v (cliRepoPath env) s).1.InitRepo L
          (CliModule.NewModule L v (cliRepoPath env) s).2).1 = some err →
        cliMain L v env (prog :: "init" :: args) s
          = (1, ((CliModule.NewModule L v (cliRepoPath env) s).1.InitRepo L
              (CliModule.NewModule L v (cliRepoPath env) s).2).2.2.eprint
                ("Error: " ++ err ++ "\n")))
    ∧ (∀ args, ((CliModule.NewModule L v (cliRepoPath env) s).1.ShowStatus L
          (CliModule.NewModule L v (cliRepoPath env) s).2).1 = some err →
        cliMain L v env (prog :: "status" :: args) s
          = (1, ((CliModule.NewModule L v (cliRepoPath env) s).1.ShowStatus L
              (CliModule.NewModule L v (cliRepoPath env) s).2).2.2.eprint
                ("Error: " ++ err ++ "\n")))
    ∧ (((CliModule.NewModule L v (cliRepoPath env) s).1.AddFiles L "."
          (CliModule.NewModule L v (cliRepoPath env) s).2).1 = some err →
        cliMain L v env [prog, "add"] s
          = (1, ((CliModule.NewModule L v (cliRepoPath env) s).1.AddFiles L "."
              (CliModule.NewModule L v (cliRepoPath env) s).2).2.2.eprint
                ("Error: " ++ err ++ "\n")))
    ∧ (∀ path rest, ((CliModule.NewModule L v (cliRepoPath env) s).1.AddFiles L path
          (CliModule.NewModule L v (cliRepoPath env) s).2).1 = some err →
        cliMain L v env (prog :: "add" :: path :: rest) s
          = (1, ((CliModule.NewModule L v (cliRepoPath env) s).1.AddFiles L path
              (CliModule.NewModule L v (cliRepoPath env) s).2).2.2.eprint
                ("Error: " ++ err ++ "\n")))
    ∧ (∀ message rest, ((CliModule.NewModule L v (cliRepoPath env) s).1.Commit L message
          (CliModule.NewModule L v (cliRepoPath env) s).2).1 = some err →
        cliMain L v env (prog :: "commit" :: message :: rest) s
          = (1, ((CliModule.NewModule L v (cliRepoPath env) s).1.Commit L message
              (CliModule.NewModule L v (cliRepoPath env) s).2).2.2.eprint
                ("Error: " ++ err ++ "\n")))
    ∧ (∀ args, ((CliModule.NewModule L v (cliRepoPath env) s).1.ShowLog L
          (CliModule.NewModule L v (cliRepoPath env) s).2).1 = some err →
        cliMain L v env (prog :: "log" :: args) s
          = (1, ((CliModule.NewModule L v (cliRepoPath env) s).1.ShowLog L
              (CliModule.NewModule L v (cliRepoPath env) s).2).2.2.eprint
                ("Error: " ++ err ++ "\n"))) := by
  refine ⟨?_, ?_, ?_, ?_, ?_, ?_⟩
  · intro args h
    rcases hres : (CliModule.NewModule L v (cliRepoPath env) s).1.InitRepo L
      (CliModule.NewModule L v (cliRepoPath env) s).2 with ⟨e, m1, s1⟩
    rw [hres] at h
    simp only at h
    subst h
    simp [cliMain, hres, cliFail]
  · intro args h
    rcases hres : (CliModule.NewModule L v (cliRepoPath env) s).1.ShowStatus L
      (CliModule.NewModule L v (cliRepoPath env) s).2 with ⟨e, m1, s1⟩
    rw [hres] at h
    simp only at h
    subst h
    simp [cliMain, hres, cliFail]
  · intro h
    rcases hres : (CliModule.NewModule L v (cliRepoPath env) s).1.AddFiles L "."
      (CliModule.NewModule L v (cliRepoPath env) s).2 with ⟨e, m1, s1⟩
    rw [hres] at h
    simp only at h
    subst h
    simp [cliMain, hres, cliFail]
  · intro path rest h
    rcases hres : (CliModule.NewModule L v (cliRepoPath env) s).1.AddFiles L path
      (CliModule.NewModule L v (cliRepoPath env) s).2 with ⟨e, m1, s1⟩
    rw [hres] at h
    simp only at h
    subst h
    simp [cliMain, hres, cliFail]
  · intro message rest h
    rcases hres : (CliModule.NewModule L v (cliRepoPath env) s).1.Commit L message
      (CliModule.NewModule L v (cliRepoPath env) s).2 with ⟨e, m1, s1⟩
    rw [hres] at h
    simp only at h
    subst h
    simp [cliMain, hres, cliFail]
  · intro args h
    rcases hres : (CliModule.NewModule L v (cliRepoPath env) s).1.ShowLog L
      (CliModule.NewModule L v (cliRepoPath env) s).2 with ⟨e, m1, s1⟩
    rw [hres] at h
    simp only at h
    subst h
    simp [cliMain, hres, cliFail]

/-- C8, amended: whatever the module state and the behaviour of the library, an error
returned by `InitRepo`, `ShowStatus`, `AddFiles` or `Commit` (in either variant, called
directly or through `HandleCommand`, which also covers an unknown verb) comes with
nothing written to standard output; an error returned by `ShowLog` comes with nothing
written when it arises before the iteration (absent handle, failing head or log
lookup), and otherwise is the failure that ended the iteration, the entries of the
commits delivered before it (after the line "Commit History:" in the standalone
variant) having been written; in the direct command line an error of the handle method
of any verb ends the process with exit code 1 after the one write "Error: <error>" to
standard error. -/
theorem C8_errors_and_output {W : Type} (L : Lib W) (m : Module) (sm : StandaloneModule)
    (s : Sys W) :
    (∀ cmd args, cmd ≠ "log" → (m.HandleCommand L cmd args s).1 ≠ none →
        (m.HandleCommand L cmd args s).2.2.stdout = s.stdout)
    ∧ ((m.InitRepo L s).1 ≠ none → (m.InitRepo L s).2.2.stdout = s.stdout)
    ∧ ((m.ShowStatus L s).1 ≠ none → (m.ShowStatus L s).2.2.stdout = s.stdout)
    ∧ (∀ path, (m.AddFiles L path s).1 ≠ none → (m.AddFiles L path s).2.2.stdout = s.stdout)
    ∧ (∀ message, (m.Commit L message s).1 ≠ none →
        (m.Commit L message s).2.2.stdout = s.stdout)
    ∧ ((sm.InitRepo L s).1 ≠ none → (sm.InitRepo L s).2.2.stdout = s.stdout)
    ∧ ((sm.ShowStatus L s).1 ≠ none → (sm.ShowStatus L s).2.2.stdout = s.stdout)
    ∧ (∀ path, (sm.AddFiles L path s).1 ≠ none → (sm.AddFiles L path s).2.2.stdout = s.stdout)
    ∧ (∀ message, (sm.Commit L message s).1 ≠ none →
        (sm.Commit L message s).2.2.stdout = s.stdout)
    ∧ ((m.ShowLog L s).1 ≠ none →
        (m.ShowLog L s).2.2.stdout = s.stdout
        ∨ ∃ r iter e, m.git = some r ∧ L.Log s.world r { From := none } = .ok iter
            ∧ iter.err = some e
            ∧ (m.ShowLog L s).1 = some ("iterating commits: " ++ e)
            ∧ (m.ShowLog L s).2.2.stdout = s.stdout ++ iter.commits.map Module.logEntry)
    ∧ ((sm.ShowLog L s).1 ≠ none →
        (sm.ShowLog L s).2.2.stdout = s.stdout
        ∨ ∃ r ref iter e, sm.git = some r ∧ L.Head s.world r = .ok ref
            ∧ L.Log s.world r { From := some ref.hash } = .ok iter
            ∧ iter.err = some e
            ∧ (sm.ShowLog L s).1 = some ("iterating commits: " ++ e)
            ∧ (sm.ShowLog L s).2.2.stdout
                = s.stdout ++ "Commit History:\n" :: StandaloneModule.historyText L iter.commits)
    ∧ ∀ (v : Variant) (env : Env) (prog : String) (err : GoError),
        let built := CliModule.NewModule L v (cliRepoPath env) s
        (∀ args, (built.1.InitRepo L built.2).1 = some err →
            cliMain L v env (prog :: "init" :: args) s
              = (1, (built.1.InitRepo L built.2).2.2.eprint ("Error: " ++ err ++ "\n")))
        ∧ (∀ args, (built.1.ShowStatus L built.2).1 = some err →
            cliMain L v env (prog :: "status" :: args) s
              = (1, (built.1.ShowStatus L built.2).2.2.eprint ("Error: " ++ err ++ "\n")))
        ∧ ((built.1.AddFiles L "." built.2).1 = some err →
            cliMain L v env [prog, "add"] s
              = (1, (built.1.AddFiles L "." built.2).2.2.eprint ("Error: " ++ err ++ "\n")))
        ∧ (∀ path rest, (built.1.AddFiles L path built.2).1 = some err →
            cliMain L v env (prog :: "add" :: path :: rest) s
              = (1, (built.1.AddFiles L path built.2).2.2.eprint ("Error: " ++ err ++ "\n")))
        ∧ (∀ message rest, (built.1.Commit L message built.2).1 = some err →
            cliMain L v env (prog :: "commit" :: message :: rest) s
              = (1, (built.1.Commit L message built.2).2.2.eprint ("Error: " ++ err ++ "\n")))
        ∧ (∀ args, (built.1.ShowLog L built.2).1 = some err →
            cliMain L v env (prog :: "log" :: args) s
              = (1, (built.1.ShowLog L built.2).2.2.eprint ("Error: " ++ err ++ "\n"))) := by
  refine ⟨?_, host_InitRepo_error_silent L m s, host_ShowStatus_error_silent L m s,
    fun path => host_AddFiles_error_silent L m path s,
    fun message => host_Commit_error_silent L m message s,
    standalone_InitRepo_error_silent L sm s,
    standalone_ShowStatus_error_silent L sm s,
    fun path => standalone_AddFiles_error_silent L sm path s,
    fun message => standalone_Commit_error_silent L sm message s,
    host_ShowLog_error_output L m s, standalone_ShowLog_error_output L sm s,
    fun v env prog err => cliMain_error_exit L v env prog s err⟩
  intro cmd args hlog h
  unfold Module.HandleCommand at h ⊢
  split_ifs at h ⊢ with h1 h2 h3 h4
  · exact host_InitRepo_error_silent L m s h
  · exact host_ShowStatus_error_silent L m s h
  · cases args with
    | nil => exact host_AddFiles_error_silent L m "." s h
    | cons a rest => exact host_AddFiles_error_silent L m a s h
  · cases args with
    | nil => rfl
    | cons a rest => exact host_Commit_error_silent L m a s h
  · rfl

/-- C8, amended, at concrete inputs: `status` on an unopened standalone module fails
silently, and the failing iteration of the host-integrated `log` leaves the one
delivered entry behind. -/
theorem C8_errors_and_output_witness :
    (unopenedStandalone.ShowStatus demoLib (Sys.start emptyWorld)).2.2.stdout = []
      ∧ ((openModule.ShowLog demoLib (Sys.start brokenHistoryWorld)).2.2.stdout = []
        ∨ ∃ r iter e, openModule.git = some r
            ∧ demoLib.Log brokenHistoryWorld r { From := none } = .ok iter
            ∧ iter.err = some e
            ∧ (openModule.ShowLog demoLib (Sys.start brokenHistoryWorld)).1
                = some ("iterating commits: " ++ e)
            ∧ (openModule.ShowLog demoLib (Sys.start brokenHistoryWorld)).2.2.stdout
                = [] ++ iter.commits.map Module.logEntry) :=
  ⟨(C8_errors_and_output demoLib unopenedModule unopenedStandalone
      (Sys.start emptyWorld)).2.2.2.2.2.2.1 (by decide),
   (C8_errors_and_output demoLib openModule openStandalone
      (Sys.start brokenHistoryWorld)).2.2.2.2.2.2.2.2.2.1 (by decide)⟩

/-! ## C9: the lifecycle of the repository handle -/

/-- C9 at its failing input: over a world where `/work` holds a repository the library
can open, the host-integrated `NewModule` leaves the handle absent (the standalone one
opens it), so the plugin entrypoint run as `run status` with `MEMEX_REPO_PATH=/work`
fails with "git repository not initialized", and `run init` fails as well because the
repository already exists. -/
theorem C9_host_constructor_leaves_repository_unopened :
    demoLib.PlainOpen repoWorld (absOrSelf demoLib repoWorld ".") = .ok { ptr := 1 }
      ∧ (Module.NewModule demoLib none "." (Sys.start repoWorld)).1.git = none
      ∧ (StandaloneModule.NewModule demoLib "." (Sys.start repoWorld)).1.git = some { ptr := 1 }
      ∧ pluginMain demoLib workEnv ["memex-git", "run", "status"] (Sys.start repoWorld)
          = (1, (Sys.start repoWorld).eprint "git repository not initialized")
      ∧ (pluginMain demoLib workEnv ["memex-git", "run", "init"] (Sys.start repoWorld)).1 = 1
      ∧ (pluginMain demoLib workEnv ["memex-git", "run", "init"] (Sys.start repoWorld)).2.stderr
          = ["initializing git repo: repository already exists"] := by
  refine ⟨rfl, rfl, rfl, rfl, rfl, rfl⟩

/-- In the plugin entrypoint the module is built afresh by the host-integrated
constructor, so `run status`, `run add`, `run commit <message>` and `run log` fail with
"git repository not initialized" for every library, world, environment and argument
tail, without output or library call. -/
theorem pluginMain_run_never_opened {W : Type} (L : Lib W) (env : Env) (prog : String)
    (args : List String) (s : Sys W) :
    pluginMain L env (prog :: "run" :: "status" :: args) s
        = (1, s.eprint "git repository not initialized")
    ∧ pluginMain L env (prog :: "run" :: "add" :: args) s
        = (1, s.eprint "git repository not initialized")
    ∧ (∀ message, pluginMain L env (prog :: "run" :: "commit" :: message :: args) s
        = (1, s.eprint "git repository not initialized"))
    ∧ pluginMain L env (prog :: "run" :: "log" :: args) s
        = (1, s.eprint "git repository not initialized") := by
  refine ⟨?_, ?_, ?_, ?_⟩
  · simp [pluginMain, Module.NewModule, Module.HandleCommand, Module.ShowStatus]
  · cases args <;>
      simp [pluginMain, Module.NewModule, Module.HandleCommand, Module.AddFiles]
  · intro message
    simp [pluginMain, Module.NewModule, Module.HandleCommand, Module.Commit]
  · simp [pluginMain, Module.NewModule, Module.HandleCommand, Module.ShowLog]

/-! ## The handle along a sequence of operations -/

/-- One operation on the standalone module: the handle is present afterwards exactly when
it was present before or the operation was an `InitRepo` that succeeded; the path stays. -/
theorem standalone_step_handle {W : Type} (L : Lib W) (m : StandaloneModule) (s : Sys W)
    (op : Op) :
    (m.step L s op).2.1.git.isSome
        = (m.git.isSome || initSucceeded [op] [(m.step L s op).1])
      ∧ (m.step L s op).2.1.repoPath = m.repoPath := by
  cases op with
  | init =>
    simp only [StandaloneModule.step, StandaloneModule.InitRepo]
    split <;> simp [initSucceeded]
  | status =>
    simp only [StandaloneModule.step, StandaloneModule.ShowStatus]
    repeat' split
    all_goals simp [initSucceeded]
  | add path =>
    simp only [StandaloneModule.step, StandaloneModule.AddFiles]
    repeat' split
    all_goals simp [initSucceeded]
  | commit message =>
    simp only [StandaloneModule.step, StandaloneModule.Commit]
    repeat' split
    all_goals simp [initSucceeded]
  | log =>
    simp only [StandaloneModule.step, StandaloneModule.ShowLog]
    repeat' split
    all_goals simp [initSucceeded]

/-- One operation on the host-integrated module: the handle is present afterwards exactly
when it was present before or the operation was an `InitRepo` that succeeded. -/
theorem host_step_handle {W : Type} (L : Lib W) (m : Module) (s : Sys W) (op : Op) :
    (m.step L s op).2.1.git.isSome
        = (m.git.isSome || initSucceeded [op] [(m.step L s op).1])
      ∧ (m.step L s op).2.1.repoPath = m.repoPath := by
  cases op with
  | init =>
    simp only [Module.step, Module.InitRepo]
    split <;> simp [initSucceeded]
  | status =>
    simp only [Module.step, Module.ShowStatus]
    repeat' split
    all_goals simp [initSucceeded]
  | add path =>
    simp only [Module.step, Module.AddFiles]
    repeat' split
    all_goals simp [initSucceeded]
  | commit message =>
    simp only [Module.step, Module.Commit]
    repeat' split
    all_goals simp [initSucceeded]
  | log =>
    simp only [Module.step, Module.ShowLog]
    repeat' split
    all_goals simp [initSucceeded]

/-- Splitting off the first operation of `initSucceeded`. -/
theorem initSucceeded_cons (op : Op) (ops : List Op) (e : Option GoError)
    (errs : List (Option GoError)) :
    initSucceeded (op :: ops) (e :: errs) = (initSucceeded [op] [e] || initSucceeded ops errs) := by
  cases op <;> cases e <;> simp [initSucceeded]

/-- Lifecycle of the standalone handle: after any finite sequence of operations the handle
is present exactly when it was present at the start or some `InitRepo` of the sequence
succeeded; in particular it never goes back from present to absent. -/
theorem standalone_run_handle {W : Type} (L : Lib W) (ops : List Op) (m : StandaloneModule)
    (s : Sys W) :
    (StandaloneModule.run L ops m s).2.1.git.isSome
      = (m.git.isSome || initSucceeded ops (StandaloneModule.run L ops m s).1) := by
  induction ops generalizing m s with
  | nil => simp [StandaloneModule.run, initSucceeded]
  | cons op ops ih =>
    simp only [StandaloneModule.run]
    rw [ih, (standalone_step_handle L m s op).1, initSucceeded_cons op ops, Bool.or_assoc]

/-- Lifecycle of the host-integrated handle along a sequence of operations. -/
theorem host_run_handle {W : Type} (L : Lib W) (ops : List Op) (m : Module) (s : Sys W) :
    (Module.run L ops m s).2.1.git.isSome
      = (m.git.isSome || initSucceeded ops (Module.run L ops m s).1) := by
  induction ops generalizing m s with
  | nil => simp [Module.run, initSucceeded]
  | cons op ops ih =>
    simp only [Module.run]
    rw [ih, (host_step_handle L m s op).1, initSucceeded_cons op ops, Bool.or_assoc]

/-- The standalone constructor reports nothing and opens the handle exactly when the
library can open a repository at the resolved path. -/
theorem standalone_NewModule_handle {W : Type} (L : Lib W) (path : String) (s : Sys W) :
    (StandaloneModule.NewModule L path s).1.git
      = (match L.PlainOpen s.world (absOrSelf L s.world path) with
          | .ok r => some r
          | .error _ => none) := by
  simp only [StandaloneModule.NewModule]
  split <;> rfl

/-- From the standalone constructor on: after any sequence of operations the handle is
present exactly when the library could open the repository at construction or some
`InitRepo` succeeded. -/
theorem standalone_lifecycle {W : Type} (L : Lib W) (path : String) (ops : List Op)
    (s : Sys W) :
    (StandaloneModule.run L ops (StandaloneModule.NewModule L path s).1
        (StandaloneModule.NewModule L path s).2).2.1.git.isSome
      = ((match L.PlainOpen s.world (absOrSelf L s.world path) with
            | .ok _ => true
            | .error _ => false)
          || initSucceeded ops (StandaloneModule.run L ops (StandaloneModule.NewModule L path s).1
              (StandaloneModule.NewModule L path s).2).1) := by
  rw [standalone_run_handle, standalone_NewModule_handle]
  cases L.PlainOpen s.world (absOrSelf L s.world path) <;> rfl

/-- From the host-integrated constructor on: after any sequence of operations the handle
is present exactly when some `InitRepo` succeeded, whatever the library could have
opened at construction. -/
theorem host_lifecycle {W : Type} (L : Lib W) (repo : Option HostRepository) (path : String)
    (ops : List Op) (s : Sys W) :
    (Module.run L ops (Module.NewModule L repo path s).1
        (Module.NewModule L repo path s).2).2.1.git.isSome
      = initSucceeded ops (Module.run L ops (Module.NewModule L repo path s).1
          (Module.NewModule L repo path s).2).1 := by
  rw [host_run_handle]
  simp [Module.NewModule]

/-! ## Further facts on staging requests and repository paths -/

/-- The staging request of the host-integrated `add`, for every library and open module:
with no argument it is the request of `add .`; with arguments it is one
`AddWithOptions` call whose options set `All` and carry the first argument joined to
the repository path. -/
theorem host_add_request {W : Type} (L : Lib W) (m : Module) (s : Sys W) (r : GitRepository)
    (wt : GitWorktree) (hm : m.git = some r) (hwt : L.Worktree s.world r = .ok wt) :
    m.HandleCommand L "add" [] s = m.HandleCommand L "add" ["."] s
    ∧ ∀ a rest, (m.HandleCommand L "add" (a :: rest) s).2.2.calls
        = s.calls ++ [LibCall.worktree r,
            LibCall.addWithOptions wt { All := true, Path := L.Join m.repoPath a, Glob := "" }] := by
  refine ⟨by simp [Module.HandleCommand], ?_⟩
  intro a rest
  have hadd : m.HandleCommand L "add" (a :: rest) s = m.AddFiles L a s := by
    simp [Module.HandleCommand]
  rw [hadd]
  simp only [Module.AddFiles, hm, hwt, Module.addOptions]
  split <;> simp [Sys.call, Sys.setWorld]

/-- The staging request of the standalone `AddFiles`, for every library and open module:
one `Add` call on the given path. -/
theorem standalone_add_request {W : Type} (L : Lib W) (m : StandaloneModule) (s : Sys W)
    (r : GitRepository) (wt : GitWorktree) (hm : m.git = some r)
    (hwt : L.Worktree s.world r = .ok wt) (path : String) :
    (m.AddFiles L path s).2.2.calls
      = s.calls ++ [LibCall.worktree r, LibCall.add wt path] := by
  simp only [StandaloneModule.AddFiles, hm, hwt]
  split <;> simp [Sys.call, Sys.setWorld]

/-- When `MEMEX_REPO_PATH` is set to a non-empty value, both entrypoints build the module
on that value. -/
theorem repoPath_from_env (env : Env) (argv : List String) (p : String)
    (h : env "MEMEX_REPO_PATH" = some p) (hp : p ≠ "") :
    pluginRepoPath env argv = p ∧ cliRepoPath env = p := by
  simp [pluginRepoPath, cliRepoPath, Getenv, h, hp]

/-- When `MEMEX_REPO_PATH` is absent or empty, the direct command line builds the module
on ".", and the plugin entrypoint builds it on its first argument when that is present
and non-empty, on "." only otherwise. -/
theorem repoPath_without_env (env : Env)
    (h : env "MEMEX_REPO_PATH" = none ∨ env "MEMEX_REPO_PATH" = some "") :
    cliRepoPath env = "."
    ∧ pluginRepoPath env [] = "."
    ∧ (∀ prog, pluginRepoPath env [prog] = ".")
    ∧ (∀ prog rest, pluginRepoPath env (prog :: "" :: rest) = ".")
    ∧ ∀ prog first rest, first ≠ "" → pluginRepoPath env (prog :: first :: rest) = first := by
  have hg : Getenv env "MEMEX_REPO_PATH" = "" := by
    rcases h with h | h <;> simp [Getenv, h]
  refine ⟨?_, ?_, ?_, ?_, ?_⟩
  · simp [cliRepoPath, hg]
  · simp [pluginRepoPath, hg]
  · intro prog
    simp [pluginRepoPath, hg]
  · intro prog rest
    simp [pluginRepoPath, hg]
  · intro prog first rest hf
    simp [pluginRepoPath, hg, hf]

end MemexGit
